import Mathlib

/-!
OSD removal (`pkg/daemon/ceph/osd/remove.go`)

A shallow embedding of `RemoveOSDs` and `removeOSD`.

The two functions only sequence calls to collaborators that live outside the
file: `writeCephConfig`, `context.Executor.ExecuteCommandWithOutput`,
`k8sutil.DeleteDeployment` and the predicate `kerrors.IsNotFound`.  The
collaborators are taken as parameters (`Collaborators`); the answer of a
collaborator may depend on every collaborator call made before it, so a value
of `Collaborators` is an arbitrary deterministic behaviour of the cluster.
The state threaded through the code is the list of collaborator calls made so
far together with the lines written to the package logger.
-/

namespace Rook

/-! Data model -/

/-- Go `error` values met in the file.  `wrapf cause format` is
`errors.Wrapf(cause, format)` called without operands: the message of the
error is what `fmt` renders for `format`. -/
inductive GoError where
  /-- an error produced by a collaborator -/
  | external (msg : String)
  /-- `*strconv.NumError`; `range` tells `ErrRange` from `ErrSyntax` -/
  | numError (fn : String) (num : String) (range : Bool)
  /-- `fmt.Errorf` with the rendered message -/
  | errorf (msg : String)
  /-- `errors.Wrap(cause, msg)` -/
  | wrap (cause : GoError) (msg : String)
  /-- `errors.Wrapf(cause, format)` -/
  | wrapf (cause : GoError) (format : String)
  deriving DecidableEq, Repr

/-- One call to a collaborator. -/
inductive Call where
  /-- `writeCephConfig(context, clusterInfo)` -/
  | writeCephConfig
  /-- `context.Executor.ExecuteCommandWithOutput(command, arg...)` -/
  | exec (command : String) (arg : List String)
  /-- `k8sutil.DeleteDeployment(context.Clientset, ns, name)` -/
  | deleteDeployment (ns : String) (name : String)
  deriving DecidableEq, Repr

/-- An operand of a logger call. -/
inductive LogArg where
  | str (s : String)
  | int (i : Int)
  | err (e : GoError)
  deriving DecidableEq, Repr

/-- Level of a logger call. -/
inductive LogLevel where
  | info
  | error
  deriving DecidableEq, Repr

/-- One call to the package logger: level, format string and operands. -/
structure LogLine where
  level : LogLevel
  format : String
  args : List LogArg
  deriving DecidableEq, Repr

/-- The collaborators of the file.  Each answer is a function of the
collaborator calls made so far. -/
structure Collaborators where
  /-- `writeCephConfig`: `none` is a nil error -/
  writeCephConfig : List Call → Option GoError
  /-- `ExecuteCommandWithOutput`: the output and the error -/
  executeCommandWithOutput : List Call → String → List String → String × Option GoError
  /-- `k8sutil.DeleteDeployment` -/
  deleteDeployment : List Call → String → String → Option GoError
  /-- `kerrors.IsNotFound` -/
  isNotFound : GoError → Bool

/-- What an execution has done so far. -/
structure World where
  calls : List Call
  log : List LogLine
  deriving DecidableEq, Repr

/-- Record a collaborator call. -/
def World.call (w : World) (c : Call) : World :=
  { w with calls := w.calls ++ [c] }

/-- `logger.Infof`. -/
def World.infof (w : World) (format : String) (args : List LogArg) : World :=
  { w with log := w.log ++ [⟨.info, format, args⟩] }

/-- `logger.Errorf`. -/
def World.errorf (w : World) (format : String) (args : List LogArg) : World :=
  { w with log := w.log ++ [⟨.error, format, args⟩] }

/-! `strconv.Atoi` (Go standard library, 64-bit `int`) -/

/-- The digit loop of `strconv.ParseUint(s, 10, 64)`: `Except.error false` is
`ErrSyntax`, `Except.error true` is `ErrRange`. -/
def parseUintLoop : List Char → Nat → Except Bool Nat
  | [], n => .ok n
  | c :: cs, n =>
    if !c.isDigit then .error false
    else if n ≥ (2 ^ 64 - 1) / 10 + 1 then .error true
    else
      let n1 := n * 10 + (c.toNat - 48)
      if n1 > 2 ^ 64 - 1 then .error true
      else parseUintLoop cs n1

/-- `strconv.ParseUint(s, 10, 64)` on the characters of `s`. -/
def parseUint (s : List Char) : Except Bool Nat :=
  if s.isEmpty then .error false else parseUintLoop s 0

/-- `strconv.Atoi` for a 64-bit `int`: an optional sign followed by decimal
digits, within the range of `int`.  (The fast path of `Atoi` for short
strings computes the same result as `ParseInt(s, 10, 0)`, which is followed
here.) -/
def Atoi (s : String) : Except GoError Int :=
  let cs := s.toList
  if cs.isEmpty then .error (.numError "Atoi" s false)
  else
    let neg := cs.head? == some '-'
    let ds := if cs.head? == some '+' || cs.head? == some '-' then cs.tail else cs
    match parseUint ds with
    | .error false => .error (.numError "Atoi" s false)
    | .error true => .error (.numError "Atoi" s true)
    | .ok un =>
      if !neg && un ≥ 2 ^ 63 then .error (.numError "Atoi" s true)
      else if neg && un > 2 ^ 63 then .error (.numError "Atoi" s true)
      else .ok (if neg then -(un : Int) else (un : Int))

/-! `removeOSD` -/

/-- The body of `removeOSD` after its first two assignments, with the two
local variables `hostName` and `osdDown` as arguments. -/
def removeOSDBody (c : Collaborators) (ns : String) (hostName : String) (osdDown : Bool)
    (osdID : Int) (w : World) : Option GoError × World :=
  if !osdDown then
    (some (.errorf ("OSD " ++ toString osdID ++ " cannot be removed unless it is \x27down\x27")), w)
  else
    let r1 := c.executeCommandWithOutput w.calls "ceph" ["osd", "out", "osd." ++ toString osdID]
    let w1 := w.call (.exec "ceph" ["osd", "out", "osd." ++ toString osdID])
    match r1.2 with
    | some err => (some (.wrapf err ("cannot remove the osd. " ++ r1.1)), w1)
    | none =>
      let deploymentName := "rook-ceph-osd-" ++ toString osdID
      let w2 := w1.infof "removing the OSD deployment %q" [.str deploymentName]
      let derr := c.deleteDeployment w2.calls ns deploymentName
      let w3 := w2.call (.deleteDeployment ns deploymentName)
      let w4 :=
        match derr with
        | some err =>
          if !c.isNotFound err then
            w3.errorf "failed to delete deployment for OSD %d. %v" [.int osdID, .err err]
          else w3
        | none => w3
      let r2 := c.executeCommandWithOutput w4.calls "ceph"
        ["osd", "purge", "osd." ++ toString osdID, "--force", "--yes-i-really-mean-it"]
      let w5 := w4.call
        (.exec "ceph" ["osd", "purge", "osd." ++ toString osdID, "--force", "--yes-i-really-mean-it"])
      match r2.2 with
      | some err => (some (.wrapf err ("failed ceph status. " ++ r2.1)), w5)
      | none =>
        let r3 := c.executeCommandWithOutput w5.calls "ceph" ["osd", "crush", "rm", hostName]
        let w6 := w5.call (.exec "ceph" ["osd", "crush", "rm", hostName])
        let w7 :=
          match r3.2 with
          | some err => w6.infof "unable to remove CRUSH host %q. %v" [.str hostName, .err err]
          | none => w6
        (none, w7.infof "completed removal of OSD %d" [.int osdID])

/-- `removeOSD`: `hostName := "minikube"`, `osdDown := true`, then the body. -/
def removeOSD (c : Collaborators) (ns : String) (osdID : Int) (w : World) :
    Option GoError × World :=
  removeOSDBody c ns "minikube" true osdID w

/-! `RemoveOSDs` -/

/-- The `for _, osdIDStr := range osdsToRemove` loop of `RemoveOSDs`. -/
def removeLoop (c : Collaborators) (ns : String) : List String → World → World
  | [], w => w
  | osdIDStr :: rest, w =>
    let w1 := w.infof "removing OSD %q" [.str osdIDStr]
    match Atoi osdIDStr with
    | .error err =>
      removeLoop c ns rest (w1.errorf "invalid OSD ID: %s. %v" [.str osdIDStr, .err err])
    | .ok osdID =>
      let r := removeOSD c ns osdID w1
      match r.1 with
      | some err =>
        removeLoop c ns rest (r.2.errorf "failed to remove OSD %d. %v" [.int osdID, .err err])
      | none => removeLoop c ns rest r.2

/-- `RemoveOSDs`: write the ceph config, then remove every OSD of the list. -/
def RemoveOSDs (c : Collaborators) (ns : String) (osdsToRemove : List String) (w : World) :
    Option GoError × World :=
  match c.writeCephConfig w.calls with
  | some err => (some (.wrap err "failed to write the ceph config"), w.call .writeCephConfig)
  | none => (none, removeLoop c ns osdsToRemove (w.call .writeCephConfig))

/-! Vocabulary of the statements -/

/-- The mark-out command `ceph osd out osd.<id>` as a collaborator call. -/
def markOutCall (osdID : Int) : Call :=
  .exec "ceph" ["osd", "out", "osd." ++ toString osdID]

/-- The deletion of the deployment `rook-ceph-osd-<id>` as a collaborator call. -/
def deleteCall (ns : String) (osdID : Int) : Call :=
  .deleteDeployment ns ("rook-ceph-osd-" ++ toString osdID)

/-- The purge command as a collaborator call. -/
def purgeCall (osdID : Int) : Call :=
  .exec "ceph" ["osd", "purge", "osd." ++ toString osdID, "--force", "--yes-i-really-mean-it"]

/-- The host-removal command `ceph osd crush rm <host>` as a collaborator call. -/
def crushRmCall (hostName : String) : Call :=
  .exec "ceph" ["osd", "crush", "rm", hostName]

/-- What the executor answers to the mark-out command of `removeOSD` started
after the calls `calls`. -/
def markOutResult (c : Collaborators) (osdID : Int) (calls : List Call) :
    String × Option GoError :=
  c.executeCommandWithOutput calls "ceph" ["osd", "out", "osd." ++ toString osdID]

/-- What the executor answers to the purge command of `removeOSD` started
after the calls `calls`: mark-out and the deployment deletion came first. -/
def purgeResult (c : Collaborators) (ns : String) (osdID : Int) (calls : List Call) :
    String × Option GoError :=
  c.executeCommandWithOutput (calls ++ [markOutCall osdID, deleteCall ns osdID]) "ceph"
    ["osd", "purge", "osd." ++ toString osdID, "--force", "--yes-i-really-mean-it"]

/-- The collaborator calls made once `removeOSD` has run after the calls
`calls`. -/
def osdCalls (c : Collaborators) (ns : String) (osdID : Int) (calls : List Call) : List Call :=
  (removeOSD c ns osdID ⟨calls, []⟩).2.calls

/-- An identifier that parses as a non-negative integer DeviceID. -/
def parsesAsDeviceID (s : String) : Bool :=
  match Atoi s with
  | .ok osdID => decide (0 ≤ osdID)
  | .error _ => false

/-! Collaborators used in the examples -/

/-- Every collaborator succeeds. -/
def allSucceed : Collaborators where
  writeCephConfig := fun _ => none
  executeCommandWithOutput := fun _ _ _ => ("", none)
  deleteDeployment := fun _ _ _ => none
  isNotFound := fun _ => false

/-- Every command of the executor fails. -/
def execFails : Collaborators where
  writeCephConfig := fun _ => none
  executeCommandWithOutput := fun _ _ _ => ("EPERM", some (.external "exit status 1"))
  deleteDeployment := fun _ _ _ => none
  isNotFound := fun _ => false

/-- A cluster in which the OSD to remove is up and which refuses to mark an
up OSD out, as the comment before the mark-out command expects; every other
call succeeds. -/
def osdUp : Collaborators where
  writeCephConfig := fun _ => none
  executeCommandWithOutput := fun _ _ arg =>
    if arg.take 2 == ["osd", "out"] then ("osd.5 is up", some (.external "exit status 16"))
    else ("", none)
  deleteDeployment := fun _ _ _ => none
  isNotFound := fun _ => false

/-- The executor succeeds on `ceph osd out` and fails on every other command. -/
def purgeFails : Collaborators where
  writeCephConfig := fun _ => none
  executeCommandWithOutput := fun _ _ arg =>
    if arg.take 2 == ["osd", "out"] then ("marked out", none)
    else ("EBUSY", some (.external "exit status 16"))
  deleteDeployment := fun _ _ _ => none
  isNotFound := fun _ => false

/-- The empty execution: no call made, nothing logged. -/
def World.empty : World := ⟨[], []⟩

/-! Lemmas on `removeOSD` -/

/-- The value returned by the body of `removeOSD` and the calls it has made,
for a device taken to be down, by the answers to mark-out and purge. -/
theorem removeOSDBody_down (c : Collaborators) (ns hostName : String) (osdID : Int) (w : World) :
    ((removeOSDBody c ns hostName true osdID w).1,
      (removeOSDBody c ns hostName true osdID w).2.calls)
      = match (markOutResult c osdID w.calls).2 with
        | some e =>
          (some (.wrapf e ("cannot remove the osd. " ++ (markOutResult c osdID w.calls).1)),
            w.calls ++ [markOutCall osdID])
        | none =>
          match (purgeResult c ns osdID w.calls).2 with
          | some e =>
            (some (.wrapf e ("failed ceph status. " ++ (purgeResult c ns osdID w.calls).1)),
              w.calls ++ [markOutCall osdID, deleteCall ns osdID, purgeCall osdID])
          | none =>
            (none, w.calls ++ [markOutCall osdID, deleteCall ns osdID, purgeCall osdID,
              crushRmCall hostName]) := by
  cases h1 : (markOutResult c osdID w.calls).2 with
  | some e =>
    simp only [markOutResult] at h1
    simp [removeOSDBody, markOutResult, markOutCall, World.call, h1]
  | none =>
    simp only [markOutResult] at h1
    cases hd : c.deleteDeployment (w.calls ++ [markOutCall osdID]) ns
        ("rook-ceph-osd-" ++ toString osdID) with
    | none =>
      simp only [markOutCall] at hd
      cases h2 : (purgeResult c ns osdID w.calls).2 with
      | some e =>
        simp only [purgeResult, markOutCall, deleteCall] at h2
        simp [removeOSDBody, markOutResult, purgeResult, markOutCall, deleteCall, purgeCall,
          World.call, World.infof, World.errorf, h1, h2, hd]
      | none =>
        simp only [purgeResult, markOutCall, deleteCall] at h2
        cases h3 : (c.executeCommandWithOutput
            (w.calls ++ [markOutCall osdID, deleteCall ns osdID, purgeCall osdID]) "ceph"
            ["osd", "crush", "rm", hostName]).2 <;>
        simp only [markOutCall, deleteCall, purgeCall] at h3 <;>
        simp [removeOSDBody, markOutResult, purgeResult, markOutCall, deleteCall, purgeCall,
          crushRmCall, World.call, World.infof, World.errorf, h1, h2, h3, hd]
    | some de =>
      simp only [markOutCall] at hd
      cases hn : c.isNotFound de <;>
      cases h2 : (purgeResult c ns osdID w.calls).2 with
      | some e =>
        simp only [purgeResult, markOutCall, deleteCall] at h2
        simp [removeOSDBody, markOutResult, purgeResult, markOutCall, deleteCall, purgeCall,
          World.call, World.infof, World.errorf, h1, h2, hd, hn]
      | none =>
        simp only [purgeResult, markOutCall, deleteCall] at h2
        cases h3 : (c.executeCommandWithOutput
            (w.calls ++ [markOutCall osdID, deleteCall ns osdID, purgeCall osdID]) "ceph"
            ["osd", "crush", "rm", hostName]).2 <;>
        simp only [markOutCall, deleteCall, purgeCall] at h3 <;>
        simp [removeOSDBody, markOutResult, purgeResult, markOutCall, deleteCall, purgeCall,
          crushRmCall, World.call, World.infof, World.errorf, h1, h2, h3, hd, hn]

/-- The value returned by `removeOSD`, by the answers to mark-out and purge. -/
theorem removeOSD_result (c : Collaborators) (ns : String) (osdID : Int) (w : World) :
    (removeOSD c ns osdID w).1
      = match (markOutResult c osdID w.calls).2 with
        | some e =>
          some (.wrapf e ("cannot remove the osd. " ++ (markOutResult c osdID w.calls).1))
        | none =>
          match (purgeResult c ns osdID w.calls).2 with
          | some e =>
            some (.wrapf e ("failed ceph status. " ++ (purgeResult c ns osdID w.calls).1))
          | none => none := by
  have h := congrArg Prod.fst (removeOSDBody_down c ns "minikube" osdID w)
  refine Eq.trans h ?_
  cases (markOutResult c osdID w.calls).2 with
  | some e => rfl
  | none => cases (purgeResult c ns osdID w.calls).2 <;> rfl

/-- The calls made once `removeOSD` has run, by the answers to mark-out and
purge. -/
theorem removeOSD_calls (c : Collaborators) (ns : String) (osdID : Int) (w : World) :
    (removeOSD c ns osdID w).2.calls
      = match (markOutResult c osdID w.calls).2 with
        | some _ => w.calls ++ [markOutCall osdID]
        | none =>
          match (purgeResult c ns osdID w.calls).2 with
          | some _ => w.calls ++ [markOutCall osdID, deleteCall ns osdID, purgeCall osdID]
          | none =>
            w.calls ++ [markOutCall osdID, deleteCall ns osdID, purgeCall osdID,
              crushRmCall "minikube"] := by
  have h := congrArg Prod.snd (removeOSDBody_down c ns "minikube" osdID w)
  refine Eq.trans h ?_
  cases (markOutResult c osdID w.calls).2 with
  | some e => rfl
  | none => cases (purgeResult c ns osdID w.calls).2 <;> rfl

/-- The calls `removeOSD` makes do not depend on what has been logged. -/
theorem removeOSD_calls_eq_osdCalls (c : Collaborators) (ns : String) (osdID : Int) (w : World) :
    (removeOSD c ns osdID w).2.calls = osdCalls c ns osdID w.calls := by
  rw [osdCalls, removeOSD_calls, removeOSD_calls]

/-- With `osdDown := true` fixed in the source, every run of `removeOSD`
issues the mark-out command. -/
theorem removeOSD_always_marks_out (c : Collaborators) (ns : String) (osdID : Int) (w : World) :
    markOutCall osdID ∈ (removeOSD c ns osdID w).2.calls := by
  rw [removeOSD_calls]
  cases (markOutResult c osdID w.calls).2 with
  | some e => simp
  | none => cases (purgeResult c ns osdID w.calls).2 <;> simp

/-- The messages of the mark-out failure and of the purge failure differ. -/
theorem purge_message_ne_markOut_message (a b : String) :
    "failed ceph status. " ++ a ≠ "cannot remove the osd. " ++ b := by
  intro h
  have h2 := congrArg String.data h
  simp only [String.data_append] at h2
  have h3 := congrArg List.head? h2
  simp at h3

/-- The four calls of a complete removal are pairwise different. -/
theorem removal_calls_nodup (ns hostName : String) (osdID : Int) :
    [markOutCall osdID, deleteCall ns osdID, purgeCall osdID, crushRmCall hostName].Nodup := by
  simp [markOutCall, deleteCall, purgeCall, crushRmCall]

/-! The removal of one OSD -/

/-- C1 as stated fails: `removeOSD` makes no liveness observation, so for an
OSD that is up, here OSD 5, it does not return the precondition failure and
it issues the mark-out command.  In a cluster that refuses to mark an up OSD
out it returns the wrapped mark-out failure after that one command; in a
cluster that accepts every command it returns nil after mark-out, the
deployment deletion, the purge and the host removal. -/
theorem removeOSD_up_osd_reaches_mark_out :
    (removeOSD osdUp "rook-ceph" 5 World.empty).1
        = some (.wrapf (.external "exit status 16") "cannot remove the osd. osd.5 is up") ∧
      (removeOSD osdUp "rook-ceph" 5 World.empty).1
        ≠ some (.errorf "OSD 5 cannot be removed unless it is \x27down\x27") ∧
      (removeOSD osdUp "rook-ceph" 5 World.empty).2.calls
        = [Call.exec "ceph" ["osd", "out", "osd.5"]] ∧
      (removeOSD allSucceed "rook-ceph" 5 World.empty).1 = none ∧
      (removeOSD allSucceed "rook-ceph" 5 World.empty).2.calls
        = [Call.exec "ceph" ["osd", "out", "osd.5"],
            Call.deleteDeployment "rook-ceph" "rook-ceph-osd-5",
            Call.exec "ceph" ["osd", "purge", "osd.5", "--force", "--yes-i-really-mean-it"],
            Call.exec "ceph" ["osd", "crush", "rm", "minikube"]] := by
  refine ⟨rfl, ?_, rfl, rfl, rfl⟩
  intro h
  have h1 : (removeOSD osdUp "rook-ceph" 5 World.empty).1
      = some (.wrapf (.external "exit status 16") "cannot remove the osd. osd.5 is up") := rfl
  rw [h1] at h
  cases h

/-- C1 amended: `removeOSD` takes every device to be down (`osdDown` is the
constant true), so for every device and every behaviour of the collaborators
it never returns the precondition failure, and the first call it makes is the
mark-out command; the removal of a device that is not down is stopped by the
failure of mark-out, after which no other call is made: further calls follow
mark-out exactly when mark-out succeeds. -/
theorem removeOSD_liveness_left_to_mark_out (c : Collaborators) (ns : String) (osdID : Int)
    (w : World) :
    (∀ msg : String, (removeOSD c ns osdID w).1 ≠ some (.errorf msg)) ∧
      ∃ rest : List Call,
        (removeOSD c ns osdID w).2.calls = w.calls ++ markOutCall osdID :: rest ∧
        ((markOutResult c osdID w.calls).2 ≠ none ↔ rest = []) := by
  rw [removeOSD_result, removeOSD_calls]
  cases (markOutResult c osdID w.calls).2 with
  | some e =>
    refine ⟨?_, [], rfl, by simp⟩
    intro msg h
    cases h
  | none =>
    cases (purgeResult c ns osdID w.calls).2 with
    | some e =>
      refine ⟨?_, [deleteCall ns osdID, purgeCall osdID], rfl, by simp⟩
      intro msg h
      cases h
    | none =>
      refine ⟨?_, [deleteCall ns osdID, purgeCall osdID, crushRmCall "minikube"], rfl,
        by simp⟩
      intro msg h
      cases h

/-- C2: if the mark-out command fails, `removeOSD` returns an error (the
failure wrapped with the command output) and the mark-out command is the only
collaborator call it has made: no deployment deletion, no purge, no host
removal. -/
theorem removeOSD_markOut_failure_stops (c : Collaborators) (ns : String) (osdID : Int)
    (w : World) (e : GoError) (h : (markOutResult c osdID w.calls).2 = some e) :
    (removeOSD c ns osdID w).1
        = some (.wrapf e ("cannot remove the osd. " ++ (markOutResult c osdID w.calls).1)) ∧
      (removeOSD c ns osdID w).2.calls = w.calls ++ [markOutCall osdID] := by
  rw [removeOSD_result, removeOSD_calls, h]
  exact ⟨rfl, rfl⟩

/-- Witness of C2: every command fails, OSD 3. -/
theorem removeOSD_markOut_failure_stops_witness :
    (markOutResult execFails 3 World.empty.calls).2 = some (.external "exit status 1") ∧
      ((removeOSD execFails "rook-ceph" 3 World.empty).1
          = some (.wrapf (.external "exit status 1")
              ("cannot remove the osd. " ++ (markOutResult execFails 3 World.empty.calls).1)) ∧
        (removeOSD execFails "rook-ceph" 3 World.empty).2.calls
          = World.empty.calls ++ [markOutCall 3]) :=
  ⟨rfl, removeOSD_markOut_failure_stops execFails "rook-ceph" 3 World.empty
    (.external "exit status 1") rfl⟩

/-- C3: if mark-out succeeds and the purge command fails, `removeOSD` returns
the purge failure wrapped with the output of the purge command; the calls it
has made are mark-out, the deployment deletion and the purge, so the
host-removal command is not among them; and the returned error differs from
every error `removeOSD` returns for a failed mark-out. -/
theorem removeOSD_purge_failure (c : Collaborators) (ns : String) (osdID : Int)
    (w : World) (e : GoError) (h1 : (markOutResult c osdID w.calls).2 = none)
    (h2 : (purgeResult c ns osdID w.calls).2 = some e) :
    (removeOSD c ns osdID w).1
        = some (.wrapf e ("failed ceph status. " ++ (purgeResult c ns osdID w.calls).1)) ∧
      (removeOSD c ns osdID w).2.calls
        = w.calls ++ [markOutCall osdID, deleteCall ns osdID, purgeCall osdID] ∧
      crushRmCall "minikube" ∉ [markOutCall osdID, deleteCall ns osdID, purgeCall osdID] ∧
      ∀ (e0 : GoError) (output : String),
        (removeOSD c ns osdID w).1 ≠ some (.wrapf e0 ("cannot remove the osd. " ++ output)) := by
  rw [removeOSD_result, removeOSD_calls, h1, h2]
  refine ⟨rfl, rfl, ?_, ?_⟩
  · simp [markOutCall, deleteCall, purgeCall, crushRmCall]
  · intro e0 output h
    injection h with h
    injection h with _ h
    exact purge_message_ne_markOut_message _ _ h

/-- Witness of C3: mark-out succeeds and every other command fails, OSD 3. -/
theorem removeOSD_purge_failure_witness :
    (markOutResult purgeFails 3 World.empty.calls).2 = none ∧
      (purgeResult purgeFails "rook-ceph" 3 World.empty.calls).2
        = some (.external "exit status 16") ∧
      ((removeOSD purgeFails "rook-ceph" 3 World.empty).1
          = some (.wrapf (.external "exit status 16")
              ("failed ceph status. "
                ++ (purgeResult purgeFails "rook-ceph" 3 World.empty.calls).1)) ∧
        (removeOSD purgeFails "rook-ceph" 3 World.empty).2.calls
          = World.empty.calls ++ [markOutCall 3, deleteCall "rook-ceph" 3, purgeCall 3] ∧
        crushRmCall "minikube" ∉ [markOutCall 3, deleteCall "rook-ceph" 3, purgeCall 3] ∧
        ∀ (e0 : GoError) (output : String),
          (removeOSD purgeFails "rook-ceph" 3 World.empty).1
            ≠ some (.wrapf e0 ("cannot remove the osd. " ++ output))) :=
  ⟨rfl, rfl, removeOSD_purge_failure purgeFails "rook-ceph" 3 World.empty
    (.external "exit status 16") rfl rfl⟩

/-- C4: whatever the collaborators answer, the calls made by one run of
`removeOSD` are an initial segment of mark-out, deployment deletion, purge,
host removal, in this order, and no call is made twice. -/
theorem removeOSD_calls_in_fixed_order (c : Collaborators) (ns : String) (osdID : Int)
    (w : World) :
    ∃ new : List Call,
      (removeOSD c ns osdID w).2.calls = w.calls ++ new ∧
      new <+: [markOutCall osdID, deleteCall ns osdID, purgeCall osdID,
        crushRmCall "minikube"] ∧
      new.Nodup := by
  have hnd := removal_calls_nodup ns "minikube" osdID
  rw [removeOSD_calls]
  cases (markOutResult c osdID w.calls).2 with
  | some e =>
    have hp : [markOutCall osdID] <+: [markOutCall osdID, deleteCall ns osdID,
        purgeCall osdID, crushRmCall "minikube"] := ⟨_, rfl⟩
    exact ⟨_, rfl, hp, hp.sublist.nodup hnd⟩
  | none =>
    cases (purgeResult c ns osdID w.calls).2 with
    | some e =>
      have hp : [markOutCall osdID, deleteCall ns osdID, purgeCall osdID]
          <+: [markOutCall osdID, deleteCall ns osdID, purgeCall osdID,
            crushRmCall "minikube"] := ⟨_, rfl⟩
      exact ⟨_, rfl, hp, hp.sublist.nodup hnd⟩
    | none => exact ⟨_, rfl, List.prefix_refl _, hnd⟩

/-- C7: if mark-out succeeds, then whatever the deployment deletion returns
and whatever `IsNotFound` says of its error, `removeOSD` goes on to the purge
command, and it returns the same value and makes the same calls as with any
other answer of the deletion. -/
theorem removeOSD_deletion_result_ignored (c : Collaborators) (ns : String) (osdID : Int)
    (w : World) (del : List Call → String → String → Option GoError) (nf : GoError → Bool)
    (h : (markOutResult c osdID w.calls).2 = none) :
    (∃ rest : List Call,
        (removeOSD { c with deleteDeployment := del, isNotFound := nf } ns osdID w).2.calls
          = w.calls ++ [markOutCall osdID, deleteCall ns osdID, purgeCall osdID] ++ rest) ∧
      (removeOSD { c with deleteDeployment := del, isNotFound := nf } ns osdID w).1
        = (removeOSD c ns osdID w).1 ∧
      (removeOSD { c with deleteDeployment := del, isNotFound := nf } ns osdID w).2.calls
        = (removeOSD c ns osdID w).2.calls := by
  have hm : markOutResult { c with deleteDeployment := del, isNotFound := nf } osdID w.calls
      = markOutResult c osdID w.calls := rfl
  have hp : purgeResult { c with deleteDeployment := del, isNotFound := nf } ns osdID w.calls
      = purgeResult c ns osdID w.calls := rfl
  refine ⟨?_, ?_, ?_⟩
  · rw [removeOSD_calls, hm, hp, h]
    cases (purgeResult c ns osdID w.calls).2 with
    | some e => exact ⟨[], by simp⟩
    | none => exact ⟨[crushRmCall "minikube"], by simp⟩
  · rw [removeOSD_result, removeOSD_result, hm, hp]
  · rw [removeOSD_calls, removeOSD_calls, hm, hp]

/-- Witness of C7: the deletion fails with an error that is not a not-found
error, where it succeeded before. -/
theorem removeOSD_deletion_result_ignored_witness :
    (markOutResult allSucceed 3 World.empty.calls).2 = none ∧
      ((∃ rest : List Call,
          (removeOSD { allSucceed with
              deleteDeployment := fun _ _ _ => some (.external "forbidden"),
              isNotFound := fun _ => false } "rook-ceph" 3 World.empty).2.calls
            = World.empty.calls ++ [markOutCall 3, deleteCall "rook-ceph" 3, purgeCall 3]
              ++ rest) ∧
        (removeOSD { allSucceed with
            deleteDeployment := fun _ _ _ => some (.external "forbidden"),
            isNotFound := fun _ => false } "rook-ceph" 3 World.empty).1
          = (removeOSD allSucceed "rook-ceph" 3 World.empty).1 ∧
        (removeOSD { allSucceed with
            deleteDeployment := fun _ _ _ => some (.external "forbidden"),
            isNotFound := fun _ => false } "rook-ceph" 3 World.empty).2.calls
          = (removeOSD allSucceed "rook-ceph" 3 World.empty).2.calls) :=
  ⟨rfl, removeOSD_deletion_result_ignored allSucceed "rook-ceph" 3 World.empty
    (fun _ _ _ => some (.external "forbidden")) (fun _ => false) rfl⟩

/-- C8: `removeOSD` returns nil exactly when the mark-out command and the
purge command both succeed; the answer of the host-removal command has no
part in the returned value. -/
theorem removeOSD_nil_iff_markOut_and_purge_succeed (c : Collaborators) (ns : String)
    (osdID : Int) (w : World) :
    (removeOSD c ns osdID w).1 = none
      ↔ (markOutResult c osdID w.calls).2 = none ∧ (purgeResult c ns osdID w.calls).2 = none := by
  rw [removeOSD_result]
  cases (markOutResult c osdID w.calls).2 with
  | some e => simp
  | none => cases (purgeResult c ns osdID w.calls).2 <;> simp

/-- C10: the calls of one run of `removeOSD` are an initial segment of
`ceph osd out osd.<id>`, the deletion of `rook-ceph-osd-<id>`,
`ceph osd purge osd.<id> --force --yes-i-really-mean-it` and
`ceph osd crush rm minikube`, and all four are made exactly when `removeOSD`
returns nil: the host removed is `minikube` for every OSD and every behaviour
of the collaborators. -/
theorem removeOSD_commands_and_fixed_host (c : Collaborators) (ns : String) (osdID : Int)
    (w : World) :
    ∃ new : List Call,
      (removeOSD c ns osdID w).2.calls = w.calls ++ new ∧
      new <+: [Call.exec "ceph" ["osd", "out", "osd." ++ toString osdID],
        Call.deleteDeployment ns ("rook-ceph-osd-" ++ toString osdID),
        Call.exec "ceph"
          ["osd", "purge", "osd." ++ toString osdID, "--force", "--yes-i-really-mean-it"],
        Call.exec "ceph" ["osd", "crush", "rm", "minikube"]] ∧
      ((removeOSD c ns osdID w).1 = none ↔
        new = [Call.exec "ceph" ["osd", "out", "osd." ++ toString osdID],
          Call.deleteDeployment ns ("rook-ceph-osd-" ++ toString osdID),
          Call.exec "ceph"
            ["osd", "purge", "osd." ++ toString osdID, "--force", "--yes-i-really-mean-it"],
          Call.exec "ceph" ["osd", "crush", "rm", "minikube"]]) := by
  rw [removeOSD_calls, removeOSD_result]
  cases (markOutResult c osdID w.calls).2 with
  | some e => exact ⟨[markOutCall osdID], rfl, ⟨_, rfl⟩, by simp [markOutCall]⟩
  | none =>
    cases (purgeResult c ns osdID w.calls).2 with
    | some e =>
      exact ⟨[markOutCall osdID, deleteCall ns osdID, purgeCall osdID], rfl, ⟨_, rfl⟩,
        by simp [markOutCall, deleteCall, purgeCall]⟩
    | none =>
      exact ⟨[markOutCall osdID, deleteCall ns osdID, purgeCall osdID, crushRmCall "minikube"],
        rfl, List.prefix_refl _, by simp [markOutCall, deleteCall, purgeCall, crushRmCall]⟩

/-! Lemmas on the loop of `RemoveOSDs` -/

/-- Logging does not change the calls. -/
theorem World.calls_infof (w : World) (format : String) (args : List LogArg) :
    (w.infof format args).calls = w.calls := rfl

/-- Logging does not change the calls. -/
theorem World.calls_errorf (w : World) (format : String) (args : List LogArg) :
    (w.errorf format args).calls = w.calls := rfl

/-- The calls made by the loop: `removeOSD` runs, in input order, for the
identifiers that `Atoi` accepts, and nothing is called for the others. -/
theorem removeLoop_calls (c : Collaborators) (ns : String) (ids : List String) (w : World) :
    (removeLoop c ns ids w).calls
      = (ids.filterMap (fun s => (Atoi s).toOption)).foldl
          (fun calls osdID => osdCalls c ns osdID calls) w.calls := by
  induction ids generalizing w with
  | nil => rfl
  | cons s rest ih =>
    cases h : Atoi s with
    | error err =>
      simp only [removeLoop, h, List.filterMap_cons, Except.toOption]
      rw [ih]
      rfl
    | ok osdID =>
      simp only [removeLoop, h, List.filterMap_cons, Except.toOption, List.foldl_cons]
      cases h1 : (removeOSD c ns osdID (w.infof "removing OSD %q" [.str s])).1 with
      | some err =>
        simp only []
        rw [ih, World.calls_errorf, removeOSD_calls_eq_osdCalls, World.calls_infof]
        rfl
      | none =>
        simp only []
        rw [ih, removeOSD_calls_eq_osdCalls, World.calls_infof]
        rfl

/-- The calls made once `removeOSD` has run extend the calls made before it
by calls that are not config writes. -/
theorem osdCalls_extends (c : Collaborators) (ns : String) (osdID : Int) (calls : List Call) :
    ∃ new : List Call, osdCalls c ns osdID calls = calls ++ new ∧
      new.count Call.writeCephConfig = 0 := by
  rw [osdCalls, removeOSD_calls]
  cases (markOutResult c osdID calls).2 with
  | some e => exact ⟨[markOutCall osdID], rfl, by simp [markOutCall]⟩
  | none =>
    cases (purgeResult c ns osdID calls).2 with
    | some e =>
      exact ⟨[markOutCall osdID, deleteCall ns osdID, purgeCall osdID], rfl,
        by simp [markOutCall, deleteCall, purgeCall]⟩
    | none =>
      exact ⟨[markOutCall osdID, deleteCall ns osdID, purgeCall osdID, crushRmCall "minikube"],
        rfl, by simp [markOutCall, deleteCall, purgeCall, crushRmCall]⟩

/-- Removing a list of parsed OSDs extends the calls made before by calls
that are not config writes. -/
theorem foldl_osdCalls_extends (c : Collaborators) (ns : String) (osdIDs : List Int)
    (calls : List Call) :
    ∃ new : List Call,
      osdIDs.foldl (fun calls osdID => osdCalls c ns osdID calls) calls = calls ++ new ∧
      new.count Call.writeCephConfig = 0 := by
  induction osdIDs generalizing calls with
  | nil => exact ⟨[], by simp⟩
  | cons osdID rest ih =>
    obtain ⟨new1, h1, hc1⟩ := osdCalls_extends c ns osdID calls
    obtain ⟨new2, h2, hc2⟩ := ih (osdCalls c ns osdID calls)
    refine ⟨new1 ++ new2, ?_, ?_⟩
    · rw [List.foldl_cons, h2, h1, List.append_assoc]
    · rw [List.count_append, hc1, hc2]

/-- The value returned by `RemoveOSDs`. -/
theorem RemoveOSDs_result (c : Collaborators) (ns : String) (ids : List String) (w : World) :
    (RemoveOSDs c ns ids w).1
      = (c.writeCephConfig w.calls).map (fun e => GoError.wrap e "failed to write the ceph config") := by
  unfold RemoveOSDs
  cases c.writeCephConfig w.calls <;> rfl

/-- The calls made once `RemoveOSDs` has run. -/
theorem RemoveOSDs_calls (c : Collaborators) (ns : String) (ids : List String) (w : World) :
    (RemoveOSDs c ns ids w).2.calls
      = match c.writeCephConfig w.calls with
        | some _ => w.calls ++ [Call.writeCephConfig]
        | none =>
          (ids.filterMap (fun s => (Atoi s).toOption)).foldl
            (fun calls osdID => osdCalls c ns osdID calls) (w.calls ++ [Call.writeCephConfig]) := by
  unfold RemoveOSDs
  cases c.writeCephConfig w.calls with
  | some e => rfl
  | none => exact removeLoop_calls c ns ids _

/-! The removal of a list of OSDs -/

/-- C5: `RemoveOSDs` returns an error exactly when the config write fails,
and the error is then the failure of the write wrapped with "failed to write
the ceph config"; neither an identifier that does not parse nor a failure of
`removeOSD` has a part in the returned value. -/
theorem RemoveOSDs_error_iff_config_write_fails (c : Collaborators) (ns : String)
    (ids : List String) (w : World) :
    ((RemoveOSDs c ns ids w).1 ≠ none ↔ c.writeCephConfig w.calls ≠ none) ∧
      (RemoveOSDs c ns ids w).1
        = (c.writeCephConfig w.calls).map
            (fun e => GoError.wrap e "failed to write the ceph config") := by
  rw [RemoveOSDs_result]
  cases c.writeCephConfig w.calls <;> simp

/-- C6: `RemoveOSDs` writes the config once, before anything else; if the
write fails it makes no other call; if it succeeds, the calls made are those
of `removeOSD` run in input order for the identifiers that `Atoi` accepts,
each run starting from the calls made so far, and no call is made for an
identifier that `Atoi` rejects.  For the identifiers "3", "abc", "5": one
config write, then the removal of OSD 3, then the removal of OSD 5. -/
theorem RemoveOSDs_one_config_write_then_each_osd (c : Collaborators) (ns : String)
    (ids : List String) (w : World) :
    (RemoveOSDs c ns ids w).2.calls
        = (match c.writeCephConfig w.calls with
          | some _ => w.calls ++ [Call.writeCephConfig]
          | none =>
            (ids.filterMap (fun s => (Atoi s).toOption)).foldl
              (fun calls osdID => osdCalls c ns osdID calls)
              (w.calls ++ [Call.writeCephConfig])) ∧
      (w.calls ++ [Call.writeCephConfig]) <+: (RemoveOSDs c ns ids w).2.calls ∧
      (RemoveOSDs c ns ids w).2.calls.count Call.writeCephConfig
        = w.calls.count Call.writeCephConfig + 1 ∧
      (RemoveOSDs c ns ["3", "abc", "5"] w).2.calls
        = (match c.writeCephConfig w.calls with
          | some _ => w.calls ++ [Call.writeCephConfig]
          | none => osdCalls c ns 5 (osdCalls c ns 3 (w.calls ++ [Call.writeCephConfig]))) := by
  refine ⟨RemoveOSDs_calls c ns ids w, ?_, ?_, ?_⟩
  · rw [RemoveOSDs_calls]
    cases c.writeCephConfig w.calls with
    | some e => exact List.prefix_refl _
    | none =>
      obtain ⟨new, h, _⟩ := foldl_osdCalls_extends c ns
        (ids.filterMap (fun s => (Atoi s).toOption)) (w.calls ++ [Call.writeCephConfig])
      exact ⟨new, h.symm⟩
  · rw [RemoveOSDs_calls]
    cases c.writeCephConfig w.calls with
    | some e => simp
    | none =>
      obtain ⟨new, h, hc⟩ := foldl_osdCalls_extends c ns
        (ids.filterMap (fun s => (Atoi s).toOption)) (w.calls ++ [Call.writeCephConfig])
      simp only []
      rw [h, List.count_append, hc]
      simp
  · rw [RemoveOSDs_calls]
    have h3 : Atoi "3" = .ok 3 := rfl
    have habc : Atoi "abc" = .error (.numError "Atoi" "abc" false) := rfl
    have h5 : Atoi "5" = .ok 5 := rfl
    simp [List.filterMap_cons, h3, habc, h5, Except.toOption]

/-- C9 as stated fails: "-1" does not parse as a non-negative DeviceID, and
`RemoveOSDs` runs `removeOSD` for it: after the config write it marks out,
deletes the deployment of, and purges OSD -1, and removes the host. -/
theorem RemoveOSDs_negative_identifier_not_skipped :
    parsesAsDeviceID "-1" = false ∧
      (RemoveOSDs allSucceed "rook-ceph" ["-1"] World.empty).2.calls
        = [Call.writeCephConfig,
            Call.exec "ceph" ["osd", "out", "osd.-1"],
            Call.deleteDeployment "rook-ceph" "rook-ceph-osd--1",
            Call.exec "ceph" ["osd", "purge", "osd.-1", "--force", "--yes-i-really-mean-it"],
            Call.exec "ceph" ["osd", "crush", "rm", "minikube"]] :=
  ⟨rfl, rfl⟩

/-- C9 amended: an identifier that `strconv.Atoi` rejects (it is not an
optionally signed run of decimal digits within the range of `int`) is
skipped: `RemoveOSDs` returns the same value and makes the same calls as for
the list without this identifier, so `removeOSD` is not run for it and the
identifiers after it are processed. -/
theorem RemoveOSDs_skips_rejected_identifier (c : Collaborators) (ns : String)
    (before : List String) (s : String) (after : List String) (w : World) (err : GoError)
    (h : Atoi s = .error err) :
    (RemoveOSDs c ns (before ++ s :: after) w).1 = (RemoveOSDs c ns (before ++ after) w).1 ∧
      (RemoveOSDs c ns (before ++ s :: after) w).2.calls
        = (RemoveOSDs c ns (before ++ after) w).2.calls := by
  refine ⟨?_, ?_⟩
  · rw [RemoveOSDs_result, RemoveOSDs_result]
  · rw [RemoveOSDs_calls, RemoveOSDs_calls]
    simp [List.filterMap_append, List.filterMap_cons, h, Except.toOption]

/-- Witness of C9 amended: "abc" between "3" and "5". -/
theorem RemoveOSDs_skips_rejected_identifier_witness :
    Atoi "abc" = .error (.numError "Atoi" "abc" false) ∧
      ((RemoveOSDs allSucceed "rook-ceph" (["3"] ++ "abc" :: ["5"]) World.empty).1
          = (RemoveOSDs allSucceed "rook-ceph" (["3"] ++ ["5"]) World.empty).1 ∧
        (RemoveOSDs allSucceed "rook-ceph" (["3"] ++ "abc" :: ["5"]) World.empty).2.calls
          = (RemoveOSDs allSucceed "rook-ceph" (["3"] ++ ["5"]) World.empty).2.calls) :=
  ⟨rfl, RemoveOSDs_skips_rejected_identifier allSucceed "rook-ceph" ["3"] "abc" ["5"]
    World.empty (.numError "Atoi" "abc" false) rfl⟩

end Rook
